import Mathlib

/-!
Verification of the UTC-to-TDB light-time correction module
(src/jwst/lib/utc_to_tdb.py) against its specification.

The module converts integration start/mid/end timestamps from UTC to TDB,
applying a barycentric (and heliocentric) light-travel-time correction along
the line of sight to a fixed target.  Machine floating-point arithmetic is
embedded as real arithmetic; numpy float arrays become lists of reals; a
numpy (n, 3) array becomes a list of 3-vectors.  Python exceptions become an
explicit error type threaded through Except.  External collaborators
(astropy ephemeris lookups, the astropy UTC-to-TT conversion, the optional
precise timeconversion service) are parameters of the embedding, since their
internals are outside the module.
-/

namespace UtcToTdb

/-- Cartesian 3-vector of real components, embedding the 3-element numpy
float arrays used throughout the module (positions in km, unit vectors). -/
structure Vec3 where
  x : ℝ
  y : ℝ
  z : ℝ

instance : Inhabited Vec3 := ⟨⟨0, 0, 0⟩⟩

namespace Vec3

/-- Componentwise addition of 3-vectors. -/
noncomputable def add (u v : Vec3) : Vec3 := ⟨u.x + v.x, u.y + v.y, u.z + v.z⟩

/-- Componentwise subtraction of 3-vectors. -/
noncomputable def sub (u v : Vec3) : Vec3 := ⟨u.x - v.x, u.y - v.y, u.z - v.z⟩

/-- Scalar multiple of a 3-vector, embedding numpy broadcasting dt * vel. -/
noncomputable def smul (c : ℝ) (v : Vec3) : Vec3 := ⟨c * v.x, c * v.y, c * v.z⟩

/-- Componentwise division of a 3-vector by a scalar, embedding
numpy vector / s. -/
noncomputable def divR (v : Vec3) (c : ℝ) : Vec3 := ⟨v.x / c, v.y / c, v.z / c⟩

/-- Dot product, embedding (u * v).sum(axis=-1) on 3-vectors. -/
noncomputable def dot (u v : Vec3) : ℝ := u.x * v.x + u.y * v.y + u.z * v.z

/-- Euclidean norm, embedding np.sqrt((v**2).sum()). -/
noncomputable def norm (v : Vec3) : ℝ := Real.sqrt (v.x ^ 2 + v.y ^ 2 + v.z ^ 2)

end Vec3

/-- Python exceptions that can leave the functions of this module.
runtimeError is RuntimeError (from find_hdu), keyError is KeyError (missing
table column in the write-back), invalidCoordinate is the ValueError raised
by the astropy SkyCoord latitude validation for a declination outside
[-90, 90]. -/
inductive PyError where
  | runtimeError
  | keyError
  | invalidCoordinate
deriving DecidableEq

/-- Speed of light in km/s as used by compute_bary_helio_time2 (source line
234): astropy.constants.c.value, which is exactly 299792458 m/s, divided
by 1000. -/
noncomputable def cspeed : ℝ := 299792458 / 1000

/-- Degrees to radians, as applied by astropy for unit bookkeeping when a
SkyCoord is built with unit deg. -/
noncomputable def deg2rad (d : ℝ) : ℝ := d * Real.pi / 180

/-- Cartesian representation of SkyCoord(ra, dec, distance=1, frame=icrs,
unit=deg), the intermediate value of get_target_vector2 (source lines
205-209): x = cos dec cos ra, y = cos dec sin ra, z = sin dec, with the
angles in radians. -/
noncomputable def sky_cartesian (ra dec : ℝ) : Vec3 :=
  ⟨Real.cos (deg2rad dec) * Real.cos (deg2rad ra),
   Real.cos (deg2rad dec) * Real.sin (deg2rad ra),
   Real.sin (deg2rad dec)⟩

/-- Embedding of get_target_vector2 (source lines 200-211): the Cartesian
coordinates of the target divided by their own Euclidean norm. -/
noncomputable def get_target_vector2 (ra dec : ℝ) : Vec3 :=
  let vector := sky_cartesian ra dec
  vector.divR (Real.sqrt (vector.x ^ 2 + vector.y ^ 2 + vector.z ^ 2))

/-- Embedding of get_target_vector2 together with the error behaviour of its
SkyCoord construction.  Modelled from the spec: the declination range
validation lives inside the external astropy SkyCoord class (not under src);
the spec states that resolving the target direction fails with
InvalidCoordinate when dec is outside [-90, 90], which matches astropy's
documented Latitude validation. -/
noncomputable def get_target_vector2E (ra dec : ℝ) : Except PyError Vec3 :=
  if dec < -90 ∨ 90 < dec then .error .invalidCoordinate
  else .ok (get_target_vector2 ra dec)

/-- External solar-system ephemeris, the collaborator behind
acoord.get_body_barycentric in get_jwst_position2.  Both functions give the
position of the named body relative to the solar-system barycenter at a
TT MJD time, in meters (the .si.value the source reads before its /1000
conversion to km). -/
structure Ephemeris where
  bary_earth : ℝ → Vec3
  bary_sun : ℝ → Vec3

/-- Embedding of get_jwst_position2 (source lines 161-198) for the case of a
per-time platform position array of shape (len(times), 3): the
barycenter-to-Earth and Sun-to-Earth vectors are converted from meters to km
and the platform position relative to Earth center is added to each,
yielding the pair (barycentric vectors, heliocentric vectors). -/
noncomputable def get_jwst_position2 (eph : Ephemeris) (times : List ℝ)
    (jwstpos : List Vec3) : List Vec3 × List Vec3 :=
  let barysun_centerearth_pos := times.map fun t => (eph.bary_earth t).divR 1000
  let centersun_centerearth_pos :=
    times.map fun t => ((eph.bary_earth t).sub (eph.bary_sun t)).divR 1000
  (List.zipWith Vec3.add barysun_centerearth_pos jwstpos,
   List.zipWith Vec3.add centersun_centerearth_pos jwstpos)

/-- Light-time correction core of compute_bary_helio_time2 (source lines
229-235) once the target unit vector is in hand: project each platform
vector onto the target direction and add distance / c / 86400 days to the
corresponding time, independently for the barycentric and heliocentric
channels. -/
noncomputable def lightTimeCorrect (tvector : Vec3) (eph : Ephemeris)
    (times : List ℝ) (jwstpos : List Vec3) : List ℝ × List ℝ :=
  let jwst_bary_vectors := (get_jwst_position2 eph times jwstpos).1
  let jwst_sun_vectors := (get_jwst_position2 eph times jwstpos).2
  let proj_bary_dist := jwst_bary_vectors.map fun v => tvector.dot v
  let proj_sun_dist := jwst_sun_vectors.map fun v => tvector.dot v
  (List.zipWith (fun t d => t + d / cspeed / 86400) times proj_bary_dist,
   List.zipWith (fun t d => t + d / cspeed / 86400) times proj_sun_dist)

/-- Embedding of compute_bary_helio_time2 (source lines 213-235).  The
target vector resolution can fail (declination out of range, raised inside
the astropy SkyCoord constructor) and that failure escapes the function;
otherwise the pair (barycentric corrected times, heliocentric corrected
times) is returned. -/
noncomputable def compute_bary_helio_time2 (eph : Ephemeris)
    (targetcoord : ℝ × ℝ) (times : List ℝ) (jwstpos : List Vec3) :
    Except PyError (List ℝ × List ℝ) :=
  match get_target_vector2E targetcoord.1 targetcoord.2 with
  | .error e => .error e
  | .ok tvector => .ok (lightTimeCorrect tvector eph times jwstpos)

/-- Embedding of linear_pos (source lines 254-287): per time t the platform
position is jwst_pos + (t - eph_time) * jwst_vel, exactly as the source's
broadcast (jwst_pos_2d + dt * jwst_vel_2d).transpose() computes it.  Note
the source multiplies the day difference dt directly by the km/s velocity,
with no conversion of days to seconds. -/
noncomputable def linear_pos (tt_times : List ℝ) (eph_time : ℝ)
    (jwst_pos jwst_vel : Vec3) : List Vec3 :=
  tt_times.map fun t => jwst_pos.add (Vec3.smul (t - eph_time) jwst_vel)

/-- Primary-header keywords that utc_tdb and get_jwst_keywords read from
fd[0].header (source lines 44 and 238-251). -/
structure PrimaryHeader where
  targ_ra : ℝ
  targ_dec : ℝ
  eph_time : ℝ
  jwst_x : ℝ
  jwst_y : ℝ
  jwst_z : ℝ
  jwst_dx : ℝ
  jwst_dy : ℝ
  jwst_dz : ℝ

/-- The INT_TIMES binary-table data: the three UTC input columns, and the
three optional BJD_TDB output columns together with presence flags (reading
an absent column with data.field raises KeyError).  nrows embeds len(data),
the row count that find_hdu checks for emptiness. -/
structure IntTimesData where
  nrows : ℕ
  int_start_MJD_UTC : List ℝ
  int_mid_MJD_UTC : List ℝ
  int_end_MJD_UTC : List ℝ
  has_start_BJD_TDB : Bool
  has_mid_BJD_TDB : Bool
  has_end_BJD_TDB : Bool
  int_start_BJD_TDB : List ℝ
  int_mid_BJD_TDB : List ℝ
  int_end_BJD_TDB : List ℝ

/-- An extension HDU: its optional EXTNAME header card and its table data. -/
structure HDU where
  extname : Option String
  data : IntTimesData

/-- A FITS file as utc_tdb sees it: the primary header (fd[0]) and the list
of extension HDUs (fd[1], fd[2], ...). -/
structure FitsFile where
  primary : PrimaryHeader
  hdus : List HDU

/-- Embedding of Python str.upper() as characterwise uppercase, used by
find_hdu on the requested extension name. -/
def pyUpper (s : String) : String := ⟨s.data.map Char.toUpper⟩

/-- Test of the loop condition in find_hdu (source line 123): the HDU has an
EXTNAME card and it equals the upper-cased requested name. -/
def hduMatches (h : HDU) (target : String) : Bool :=
  match h.extname with
  | some e => e == target
  | none => false

/-- The scanning loop of find_hdu (source lines 121-129): walk the extension
HDUs keeping the match found so far; a second match raises RuntimeError on
the spot. -/
def findLoop (target : String) : List HDU → Option HDU → Except PyError (Option HDU)
  | [], acc => .ok acc
  | h :: rest, acc =>
    if hduMatches h target then
      if acc.isSome then .error .runtimeError
      else findLoop target rest (some h)
    else findLoop target rest acc

/-- Embedding of find_hdu (source lines 101-134).  The source returns the
index hdunum and the caller immediately indexes fd[hdunum]; the embedding
fuses the two and returns the found HDU itself.  After the loop, having no
match or a matched table with fewer than one row raises RuntimeError. -/
def find_hdu (fd : FitsFile) (extname : String) : Except PyError HDU :=
  let extname_uc := pyUpper extname
  match findLoop extname_uc fd.hdus none with
  | .error e => .error e
  | .ok none => .error .runtimeError
  | .ok (some h) => if h.data.nrows < 1 then .error .runtimeError else .ok h

/-- The write-back try-block of utc_tdb (source lines 83-90): assign the
start, mid and end BJD_TDB columns in that fixed order; the first absent
column raises KeyError, which the source catches by setting missing = True.
Columns assigned before the failing one keep their new values.  Returns the
table after the attempt and the missing flag. -/
def writeBjdColumns (tb : IntTimesData) (tdb_start tdb_mid tdb_end : List ℝ) :
    IntTimesData × Bool :=
  if tb.has_start_BJD_TDB then
    let tb1 := { tb with int_start_BJD_TDB := tdb_start }
    if tb1.has_mid_BJD_TDB then
      let tb2 := { tb1 with int_mid_BJD_TDB := tdb_mid }
      if tb2.has_end_BJD_TDB then
        ({ tb2 with int_end_BJD_TDB := tdb_end }, false)
      else (tb2, true)
    else (tb1, true)
  else (tb, true)

/-- The environment of external collaborators that utc_tdb depends on.
to_tt is the astropy UTC-to-TT scalar conversion (applied elementwise to a
column, as astropy Time does).  useTimeconversion is the module flag
USE_TIMECONVERSION set by the import probe.  compute_bary_helio_time is the
precise timeconversion service.  Modelled from the spec: the timeconversion
module is code of this repository that is not under src; per its contract it
maps each TT time to the pair (barycentric TDB, heliocentric TDB) for the
given target coordinate, so it is embedded as a per-element function. -/
structure Env where
  to_tt : ℝ → ℝ
  useTimeconversion : Bool
  compute_bary_helio_time : ℝ × ℝ → ℝ → ℝ × ℝ
  eph : Ephemeris

/-- Result of a normal (non-raising) return of utc_tdb: either the sentinel
(0., 0., 0.) - reached only after the find_hdu RuntimeError was caught and
logged as a warning - or the triple of TDB arrays together with the state of
the INT_TIMES table after the write-back attempt and the missing flag
(true exactly when the KeyError warning about absent BJD_TDB columns was
logged). -/
inductive TdbReturn where
  | sentinel
  | values (tdb_start tdb_mid tdb_end : List ℝ) (table : IntTimesData)
      (missing : Bool)

/-- Embedding of utc_tdb (source lines 27-98).  A RuntimeError from find_hdu
is caught: the file is closed and the sentinel returned.  On the precise
path the per-time service is applied and element [0] (the barycentric time)
kept; on the fallback path linear_pos positions feed
compute_bary_helio_time2, whose element [0] is kept, and whose error (the
SkyCoord coordinate validation) propagates uncaught.  Finally the write-back
is attempted and the triple returned. -/
noncomputable def utc_tdb (env : Env) (fd : FitsFile) : Except PyError TdbReturn :=
  let targetcoord := (fd.primary.targ_ra, fd.primary.targ_dec)
  match find_hdu fd "int_times" with
  | .error _ => .ok .sentinel
  | .ok hdu =>
    let tt_start_times := hdu.data.int_start_MJD_UTC.map env.to_tt
    let tt_mid_times := hdu.data.int_mid_MJD_UTC.map env.to_tt
    let tt_end_times := hdu.data.int_end_MJD_UTC.map env.to_tt
    if env.useTimeconversion then
      let tdb_start_times :=
        tt_start_times.map fun t => (env.compute_bary_helio_time targetcoord t).1
      let tdb_mid_times :=
        tt_mid_times.map fun t => (env.compute_bary_helio_time targetcoord t).1
      let tdb_end_times :=
        tt_end_times.map fun t => (env.compute_bary_helio_time targetcoord t).1
      let wb := writeBjdColumns hdu.data tdb_start_times tdb_mid_times tdb_end_times
      .ok (.values tdb_start_times tdb_mid_times tdb_end_times wb.1 wb.2)
    else
      let eph_time := env.to_tt fd.primary.eph_time
      let jwst_pos : Vec3 := ⟨fd.primary.jwst_x, fd.primary.jwst_y, fd.primary.jwst_z⟩
      let jwst_vel : Vec3 := ⟨fd.primary.jwst_dx, fd.primary.jwst_dy, fd.primary.jwst_dz⟩
      match compute_bary_helio_time2 env.eph targetcoord tt_start_times
          (linear_pos tt_start_times eph_time jwst_pos jwst_vel) with
      | .error e => .error e
      | .ok rs =>
        match compute_bary_helio_time2 env.eph targetcoord tt_mid_times
            (linear_pos tt_mid_times eph_time jwst_pos jwst_vel) with
        | .error e => .error e
        | .ok rm =>
          match compute_bary_helio_time2 env.eph targetcoord tt_end_times
              (linear_pos tt_end_times eph_time jwst_pos jwst_vel) with
          | .error e => .error e
          | .ok re =>
            let wb := writeBjdColumns hdu.data rs.1 rm.1 re.1
            .ok (.values rs.1 rm.1 re.1 wb.1 wb.2)

/-- Number of extension HDUs whose EXTNAME matches the given name, used to
phrase absence/duplication of the INT_TIMES table. -/
def matchCount (fd : FitsFile) (target : String) : ℕ :=
  (fd.hdus.filter fun h => hduMatches h target).length

/-! Helper lemmas about list indexing used by several claim theorems. -/

theorem getElem!_zipWith {α β γ : Type} [Inhabited α] [Inhabited β] [Inhabited γ]
    (f : α → β → γ) (as : List α) (bs : List β) (i : ℕ)
    (hi : i < as.length) (hl : bs.length = as.length) :
    (List.zipWith f as bs)[i]! = f as[i]! bs[i]! := by
  have hb : i < bs.length := hl ▸ hi
  have hz : i < (List.zipWith f as bs).length := by
    rw [List.length_zipWith, hl, min_self]
    exact hi
  rw [getElem!_pos (List.zipWith f as bs) i hz, getElem!_pos as i hi,
    getElem!_pos bs i hb, List.getElem_zipWith]

theorem getElem!_map {α β : Type} [Inhabited α] [Inhabited β] (f : α → β)
    (as : List α) (i : ℕ) (hi : i < as.length) :
    (as.map f)[i]! = f as[i]! := by
  have hm : i < (as.map f).length := by simpa using hi
  rw [getElem!_pos (as.map f) i hm, getElem!_pos as i hi, List.getElem_map]

theorem length_get_jwst_position2_fst (eph : Ephemeris) (times : List ℝ)
    (jwstpos : List Vec3) (hlen : jwstpos.length = times.length) :
    (get_jwst_position2 eph times jwstpos).1.length = times.length := by
  simp [get_jwst_position2, List.length_zipWith, hlen]

theorem length_get_jwst_position2_snd (eph : Ephemeris) (times : List ℝ)
    (jwstpos : List Vec3) (hlen : jwstpos.length = times.length) :
    (get_jwst_position2 eph times jwstpos).2.length = times.length := by
  simp [get_jwst_position2, List.length_zipWith, hlen]

theorem get_target_vector2E_ok (ra dec : ℝ) (hdec1 : -90 ≤ dec)
    (hdec2 : dec ≤ 90) :
    get_target_vector2E ra dec = .ok (get_target_vector2 ra dec) := by
  rw [get_target_vector2E, if_neg]
  push_neg
  exact ⟨by linarith, by linarith⟩

theorem findLoop_eq_of_count_zero (target : String) (hdus : List HDU)
    (acc : Option HDU)
    (h : (hdus.filter fun hd => hduMatches hd target).length = 0) :
    findLoop target hdus acc = .ok acc := by
  induction hdus generalizing acc with
  | nil => rfl
  | cons hd rest ih =>
    cases hmb : hduMatches hd target with
    | false =>
      rw [findLoop, if_neg (by simp [hmb])]
      exact ih acc (by simpa [List.filter_cons, hmb] using h)
    | true => simp [List.filter_cons, hmb] at h

theorem findLoop_error_of_many (target : String) (hdus : List HDU) :
    ∀ acc : Option HDU,
    2 ≤ (hdus.filter fun hd => hduMatches hd target).length +
      (if acc.isSome then 1 else 0) →
    findLoop target hdus acc = .error .runtimeError := by
  induction hdus with
  | nil =>
    intro acc h
    cases acc <;> simp at h
  | cons hd rest ih =>
    intro acc h
    cases hmb : hduMatches hd target with
    | false =>
      rw [findLoop, if_neg (by simp [hmb])]
      exact ih acc (by simpa [List.filter_cons, hmb] using h)
    | true =>
      cases acc with
      | some a => rw [findLoop, if_pos (by simp [hmb]), if_pos (by simp)]
      | none =>
        rw [findLoop, if_pos (by simp [hmb]), if_neg (by simp)]
        refine ih (some hd) ?_
        simp only [List.filter_cons, hmb, if_true, List.length_cons,
          Option.isSome_some, Option.isSome_none] at h ⊢
        simp at h
        omega

theorem findLoop_some_of_count_one (target : String) (hdus : List HDU)
    (h : (hdus.filter fun hd => hduMatches hd target).length = 1) :
    ∃ hd, findLoop target hdus none = .ok (some hd) ∧
      hduMatches hd target = true ∧ hd ∈ hdus := by
  induction hdus with
  | nil => simp at h
  | cons hd rest ih =>
    cases hmb : hduMatches hd target with
    | false =>
      obtain ⟨hd0, h1, h2, h3⟩ := ih (by simpa [List.filter_cons, hmb] using h)
      refine ⟨hd0, ?_, h2, List.mem_cons_of_mem hd h3⟩
      rw [findLoop, if_neg (by simp [hmb])]
      exact h1
    | true =>
      have hrest : (rest.filter fun hd => hduMatches hd target).length = 0 := by
        simp only [List.filter_cons, hmb, if_true, List.length_cons] at h
        omega
      refine ⟨hd, ?_, hmb, List.mem_cons_self hd rest⟩
      rw [findLoop, if_pos (by simp [hmb]), if_neg (by simp)]
      exact findLoop_eq_of_count_zero target rest (some hd) hrest

theorem find_hdu_error_cases (fd : FitsFile)
    (h : matchCount fd "INT_TIMES" = 0 ∨ 2 ≤ matchCount fd "INT_TIMES" ∨
      (matchCount fd "INT_TIMES" = 1 ∧
        ∀ hd ∈ fd.hdus, hduMatches hd "INT_TIMES" = true → hd.data.nrows = 0)) :
    find_hdu fd "int_times" = .error .runtimeError := by
  have htu : pyUpper "int_times" = "INT_TIMES" := by decide
  rcases h with h0 | h2 | ⟨h1, hempty⟩
  · rw [find_hdu, htu, findLoop_eq_of_count_zero "INT_TIMES" fd.hdus none h0]
  · rw [find_hdu, htu,
      findLoop_error_of_many "INT_TIMES" fd.hdus none (by simpa using h2)]
  · obtain ⟨hd, hfl, hm, hmem⟩ := findLoop_some_of_count_one "INT_TIMES" fd.hdus h1
    rw [find_hdu, htu, hfl]
    simp only [if_pos]
    rw [if_pos]
    rw [hempty hd hmem hm]
    norm_num

theorem get_target_vector2E_error (ra dec : ℝ) (hdec : dec < -90 ∨ 90 < dec) :
    get_target_vector2E ra dec = .error .invalidCoordinate := by
  rw [get_target_vector2E, if_pos hdec]

theorem compute_bary_helio_time2_ok (eph : Ephemeris) (ra dec : ℝ)
    (hdec1 : -90 ≤ dec) (hdec2 : dec ≤ 90) (times : List ℝ)
    (jwstpos : List Vec3) :
    compute_bary_helio_time2 eph (ra, dec) times jwstpos =
      .ok (lightTimeCorrect (get_target_vector2 ra dec) eph times jwstpos) := by
  simp only [compute_bary_helio_time2]
  rw [get_target_vector2E_ok ra dec hdec1 hdec2]

theorem compute_bary_helio_time2_error (eph : Ephemeris) (ra dec : ℝ)
    (hdec : dec < -90 ∨ 90 < dec) (times : List ℝ) (jwstpos : List Vec3) :
    compute_bary_helio_time2 eph (ra, dec) times jwstpos =
      .error .invalidCoordinate := by
  simp only [compute_bary_helio_time2]
  rw [get_target_vector2E_error ra dec hdec]

theorem length_linear_pos (tt_times : List ℝ) (eph_time : ℝ)
    (jwst_pos jwst_vel : Vec3) :
    (linear_pos tt_times eph_time jwst_pos jwst_vel).length = tt_times.length := by
  simp [linear_pos]

theorem length_lightTimeCorrect_fst (v : Vec3) (eph : Ephemeris)
    (times : List ℝ) (jwstpos : List Vec3)
    (hlen : jwstpos.length = times.length) :
    (lightTimeCorrect v eph times jwstpos).1.length = times.length := by
  simp [lightTimeCorrect, List.length_zipWith,
    length_get_jwst_position2_fst eph times jwstpos hlen]

theorem length_lightTimeCorrect_snd (v : Vec3) (eph : Ephemeris)
    (times : List ℝ) (jwstpos : List Vec3)
    (hlen : jwstpos.length = times.length) :
    (lightTimeCorrect v eph times jwstpos).2.length = times.length := by
  simp [lightTimeCorrect, List.length_zipWith,
    length_get_jwst_position2_snd eph times jwstpos hlen]

theorem utc_tdb_precise_eq (env : Env) (fd : FitsFile) (hdu : HDU)
    (hfind : find_hdu fd "int_times" = .ok hdu)
    (htc : env.useTimeconversion = true) :
    utc_tdb env fd = .ok (.values
      ((hdu.data.int_start_MJD_UTC.map env.to_tt).map fun t =>
        (env.compute_bary_helio_time (fd.primary.targ_ra, fd.primary.targ_dec) t).1)
      ((hdu.data.int_mid_MJD_UTC.map env.to_tt).map fun t =>
        (env.compute_bary_helio_time (fd.primary.targ_ra, fd.primary.targ_dec) t).1)
      ((hdu.data.int_end_MJD_UTC.map env.to_tt).map fun t =>
        (env.compute_bary_helio_time (fd.primary.targ_ra, fd.primary.targ_dec) t).1)
      (writeBjdColumns hdu.data
        ((hdu.data.int_start_MJD_UTC.map env.to_tt).map fun t =>
          (env.compute_bary_helio_time (fd.primary.targ_ra, fd.primary.targ_dec) t).1)
        ((hdu.data.int_mid_MJD_UTC.map env.to_tt).map fun t =>
          (env.compute_bary_helio_time (fd.primary.targ_ra, fd.primary.targ_dec) t).1)
        ((hdu.data.int_end_MJD_UTC.map env.to_tt).map fun t =>
          (env.compute_bary_helio_time (fd.primary.targ_ra, fd.primary.targ_dec) t).1)).1
      (writeBjdColumns hdu.data
        ((hdu.data.int_start_MJD_UTC.map env.to_tt).map fun t =>
          (env.compute_bary_helio_time (fd.primary.targ_ra, fd.primary.targ_dec) t).1)
        ((hdu.data.int_mid_MJD_UTC.map env.to_tt).map fun t =>
          (env.compute_bary_helio_time (fd.primary.targ_ra, fd.primary.targ_dec) t).1)
        ((hdu.data.int_end_MJD_UTC.map env.to_tt).map fun t =>
          (env.compute_bary_helio_time (fd.primary.targ_ra, fd.primary.targ_dec) t).1)).2) := by
  simp only [utc_tdb, hfind, htc, if_true]

theorem utc_tdb_fallback_eq (env : Env) (fd : FitsFile) (hdu : HDU)
    (hfind : find_hdu fd "int_times" = .ok hdu)
    (htc : env.useTimeconversion = false)
    (hd1 : -90 ≤ fd.primary.targ_dec) (hd2 : fd.primary.targ_dec ≤ 90) :
    utc_tdb env fd = .ok (.values
      (lightTimeCorrect (get_target_vector2 fd.primary.targ_ra fd.primary.targ_dec)
        env.eph (hdu.data.int_start_MJD_UTC.map env.to_tt)
        (linear_pos (hdu.data.int_start_MJD_UTC.map env.to_tt)
          (env.to_tt fd.primary.eph_time)
          ⟨fd.primary.jwst_x, fd.primary.jwst_y, fd.primary.jwst_z⟩
          ⟨fd.primary.jwst_dx, fd.primary.jwst_dy, fd.primary.jwst_dz⟩)).1
      (lightTimeCorrect (get_target_vector2 fd.primary.targ_ra fd.primary.targ_dec)
        env.eph (hdu.data.int_mid_MJD_UTC.map env.to_tt)
        (linear_pos (hdu.data.int_mid_MJD_UTC.map env.to_tt)
          (env.to_tt fd.primary.eph_time)
          ⟨fd.primary.jwst_x, fd.primary.jwst_y, fd.primary.jwst_z⟩
          ⟨fd.primary.jwst_dx, fd.primary.jwst_dy, fd.primary.jwst_dz⟩)).1
      (lightTimeCorrect (get_target_vector2 fd.primary.targ_ra fd.primary.targ_dec)
        env.eph (hdu.data.int_end_MJD_UTC.map env.to_tt)
        (linear_pos (hdu.data.int_end_MJD_UTC.map env.to_tt)
          (env.to_tt fd.primary.eph_time)
          ⟨fd.primary.jwst_x, fd.primary.jwst_y, fd.primary.jwst_z⟩
          ⟨fd.primary.jwst_dx, fd.primary.jwst_dy, fd.primary.jwst_dz⟩)).1
      (writeBjdColumns hdu.data
        (lightTimeCorrect (get_target_vector2 fd.primary.targ_ra fd.primary.targ_dec)
          env.eph (hdu.data.int_start_MJD_UTC.map env.to_tt)
          (linear_pos (hdu.data.int_start_MJD_UTC.map env.to_tt)
            (env.to_tt fd.primary.eph_time)
            ⟨fd.primary.jwst_x, fd.primary.jwst_y, fd.primary.jwst_z⟩
            ⟨fd.primary.jwst_dx, fd.primary.jwst_dy, fd.primary.jwst_dz⟩)).1
        (lightTimeCorrect (get_target_vector2 fd.primary.targ_ra fd.primary.targ_dec)
          env.eph (hdu.data.int_mid_MJD_UTC.map env.to_tt)
          (linear_pos (hdu.data.int_mid_MJD_UTC.map env.to_tt)
            (env.to_tt fd.primary.eph_time)
            ⟨fd.primary.jwst_x, fd.primary.jwst_y, fd.primary.jwst_z⟩
            ⟨fd.primary.jwst_dx, fd.primary.jwst_dy, fd.primary.jwst_dz⟩)).1
        (lightTimeCorrect (get_target_vector2 fd.primary.targ_ra fd.primary.targ_dec)
          env.eph (hdu.data.int_end_MJD_UTC.map env.to_tt)
          (linear_pos (hdu.data.int_end_MJD_UTC.map env.to_tt)
            (env.to_tt fd.primary.eph_time)
            ⟨fd.primary.jwst_x, fd.primary.jwst_y, fd.primary.jwst_z⟩
            ⟨fd.primary.jwst_dx, fd.primary.jwst_dy, fd.primary.jwst_dz⟩)).1).1
      (writeBjdColumns hdu.data
        (lightTimeCorrect (get_target_vector2 fd.primary.targ_ra fd.primary.targ_dec)
          env.eph (hdu.data.int_start_MJD_UTC.map env.to_tt)
          (linear_pos (hdu.data.int_start_MJD_UTC.map env.to_tt)
            (env.to_tt fd.primary.eph_time)
            ⟨fd.primary.jwst_x, fd.primary.jwst_y, fd.primary.jwst_z⟩
            ⟨fd.primary.jwst_dx, fd.primary.jwst_dy, fd.primary.jwst_dz⟩)).1
        (lightTimeCorrect (get_target_vector2 fd.primary.targ_ra fd.primary.targ_dec)
          env.eph (hdu.data.int_mid_MJD_UTC.map env.to_tt)
          (linear_pos (hdu.data.int_mid_MJD_UTC.map env.to_tt)
            (env.to_tt fd.primary.eph_time)
            ⟨fd.primary.jwst_x, fd.primary.jwst_y, fd.primary.jwst_z⟩
            ⟨fd.primary.jwst_dx, fd.primary.jwst_dy, fd.primary.jwst_dz⟩)).1
        (lightTimeCorrect (get_target_vector2 fd.primary.targ_ra fd.primary.targ_dec)
          env.eph (hdu.data.int_end_MJD_UTC.map env.to_tt)
          (linear_pos (hdu.data.int_end_MJD_UTC.map env.to_tt)
            (env.to_tt fd.primary.eph_time)
            ⟨fd.primary.jwst_x, fd.primary.jwst_y, fd.primary.jwst_z⟩
            ⟨fd.primary.jwst_dx, fd.primary.jwst_dy, fd.primary.jwst_dz⟩)).1).2) := by
  simp only [utc_tdb, hfind, htc, if_false, Bool.false_eq_true]
  rw [compute_bary_helio_time2_ok env.eph fd.primary.targ_ra fd.primary.targ_dec
    hd1 hd2, compute_bary_helio_time2_ok env.eph fd.primary.targ_ra
    fd.primary.targ_dec hd1 hd2, compute_bary_helio_time2_ok env.eph
    fd.primary.targ_ra fd.primary.targ_dec hd1 hd2]

/-! Claim theorems. -/

theorem utc_tdb_fallback_error_aux (env : Env) (fd : FitsFile) (hdu : HDU)
    (hfind : find_hdu fd "int_times" = .ok hdu)
    (htc : env.useTimeconversion = false)
    (hdec : fd.primary.targ_dec < -90 ∨ 90 < fd.primary.targ_dec) :
    utc_tdb env fd = .error .invalidCoordinate := by
  simp only [utc_tdb, hfind, htc, if_false, Bool.false_eq_true]
  rw [compute_bary_helio_time2_error env.eph fd.primary.targ_ra
    fd.primary.targ_dec hdec]

/-- C3: whenever the INT_TIMES table is absent, empty, or present in more
than one HDU, utc_tdb returns the sentinel (the find_hdu RuntimeError is
caught, logged as a warning, and turned into the sentinel return) and no
exception propagates to the caller. -/
theorem utc_tdb_missing_table_sentinel (env : Env) (fd : FitsFile)
    (h : matchCount fd "INT_TIMES" = 0 ∨ 2 ≤ matchCount fd "INT_TIMES" ∨
      (matchCount fd "INT_TIMES" = 1 ∧
        ∀ hd ∈ fd.hdus, hduMatches hd "INT_TIMES" = true → hd.data.nrows = 0)) :
    utc_tdb env fd = .ok .sentinel := by
  simp only [utc_tdb, find_hdu_error_cases fd h]

/-- Witness for C3 on a file with no extension HDUs at all. -/
theorem utc_tdb_missing_table_sentinel_witness :
    utc_tdb ⟨id, true, fun _ t => (t, t), ⟨fun _ => ⟨0, 0, 0⟩, fun _ => ⟨0, 0, 0⟩⟩⟩
      ⟨⟨0, 0, 0, 0, 0, 0, 0, 0, 0⟩, []⟩ = .ok .sentinel :=
  utc_tdb_missing_table_sentinel _ _ (Or.inl rfl)

/-- C8: with the fallback provider active, a declination outside [-90, 90]
makes utc_tdb fail with the coordinate-validation error: the error raised
inside the target direction resolver propagates to the caller instead of
being converted into the zero sentinel or a degraded result. -/
theorem utc_tdb_invalid_dec_propagates (env : Env) (fd : FitsFile) (hdu : HDU)
    (hfind : find_hdu fd "int_times" = .ok hdu)
    (htc : env.useTimeconversion = false)
    (hdec : fd.primary.targ_dec < -90 ∨ 90 < fd.primary.targ_dec) :
    utc_tdb env fd = .error .invalidCoordinate :=
  utc_tdb_fallback_error_aux env fd hdu hfind htc hdec

/-- Witness for C8 on a file whose target declination is 91 degrees. -/
theorem utc_tdb_invalid_dec_propagates_witness :
    utc_tdb ⟨id, false, fun _ t => (t, t), ⟨fun _ => ⟨0, 0, 0⟩, fun _ => ⟨0, 0, 0⟩⟩⟩
      ⟨⟨0, 91, 0, 0, 0, 0, 0, 0, 0⟩,
        [⟨some "INT_TIMES", ⟨1, [], [], [], true, true, true, [], [], []⟩⟩]⟩ =
      .error .invalidCoordinate :=
  utc_tdb_invalid_dec_propagates _ _
    ⟨some "INT_TIMES", ⟨1, [], [], [], true, true, true, [], [], []⟩⟩ rfl rfl
    (Or.inr (by norm_num))

/-- C9: when the INT_TIMES table is present but all three BJD_TDB output
columns are absent, utc_tdb reports the write-back as skipped (missing flag
true, hence the diagnostic warning), leaves the table unchanged, and still
returns the computed TDB arrays normally. -/
theorem utc_tdb_missing_output_columns_skips_writeback (env : Env)
    (fd : FitsFile) (hdu : HDU) (hfind : find_hdu fd "int_times" = .ok hdu)
    (h1 : hdu.data.has_start_BJD_TDB = false)
    (h2 : hdu.data.has_mid_BJD_TDB = false)
    (h3 : hdu.data.has_end_BJD_TDB = false)
    (hok : env.useTimeconversion = true ∨
      (env.useTimeconversion = false ∧ -90 ≤ fd.primary.targ_dec ∧
        fd.primary.targ_dec ≤ 90)) :
    ∃ ts tm te, utc_tdb env fd = .ok (.values ts tm te hdu.data true) := by
  have hw : ∀ s m e : List ℝ, writeBjdColumns hdu.data s m e = (hdu.data, true) := by
    intro s m e
    simp [writeBjdColumns, h1]
  rcases hok with htc | ⟨htc, hd1, hd2⟩
  · exact ⟨_, _, _, by rw [utc_tdb_precise_eq env fd hdu hfind htc, hw]⟩
  · exact ⟨_, _, _, by rw [utc_tdb_fallback_eq env fd hdu hfind htc hd1 hd2, hw]⟩

/-- Witness for C9 on a table with no BJD_TDB output columns, precise
provider active. -/
theorem utc_tdb_missing_output_columns_skips_writeback_witness :
    ∃ ts tm te,
      utc_tdb ⟨id, true, fun _ t => (t, t), ⟨fun _ => ⟨0, 0, 0⟩, fun _ => ⟨0, 0, 0⟩⟩⟩
        ⟨⟨0, 0, 0, 0, 0, 0, 0, 0, 0⟩,
          [⟨some "INT_TIMES", ⟨1, [], [], [], false, false, false, [], [], []⟩⟩]⟩ =
      .ok (.values ts tm te ⟨1, [], [], [], false, false, false, [], [], []⟩ true) :=
  utc_tdb_missing_output_columns_skips_writeback _ _
    ⟨some "INT_TIMES", ⟨1, [], [], [], false, false, false, [], [], []⟩⟩ rfl rfl
    rfl rfl (Or.inl rfl)

/-- C10: the write-back is not atomic.  When the start and mid BJD_TDB
columns exist but the end column is absent, utc_tdb still reports the
write-back as skipped (missing flag true), yet the start and mid columns
have already been overwritten with the computed arrays; only the end column
keeps its old contents. -/
theorem utc_tdb_partial_writeback_nonatomic (env : Env) (fd : FitsFile)
    (hdu : HDU) (hfind : find_hdu fd "int_times" = .ok hdu)
    (h1 : hdu.data.has_start_BJD_TDB = true)
    (h2 : hdu.data.has_mid_BJD_TDB = true)
    (h3 : hdu.data.has_end_BJD_TDB = false)
    (hok : env.useTimeconversion = true ∨
      (env.useTimeconversion = false ∧ -90 ≤ fd.primary.targ_dec ∧
        fd.primary.targ_dec ≤ 90)) :
    ∃ ts tm te, utc_tdb env fd = .ok (.values ts tm te
      { hdu.data with int_start_BJD_TDB := ts, int_mid_BJD_TDB := tm } true) := by
  have hw : ∀ s m e : List ℝ, writeBjdColumns hdu.data s m e =
      ({ hdu.data with int_start_BJD_TDB := s, int_mid_BJD_TDB := m }, true) := by
    intro s m e
    simp [writeBjdColumns, h1, h2, h3]
  rcases hok with htc | ⟨htc, hd1, hd2⟩
  · exact ⟨_, _, _, by rw [utc_tdb_precise_eq env fd hdu hfind htc, hw]⟩
  · exact ⟨_, _, _, by rw [utc_tdb_fallback_eq env fd hdu hfind htc hd1 hd2, hw]⟩

/-- Witness for C10 on a table whose start and mid output columns exist but
whose end output column is absent. -/
theorem utc_tdb_partial_writeback_nonatomic_witness :
    ∃ ts tm te,
      utc_tdb ⟨id, true, fun _ t => (t, t), ⟨fun _ => ⟨0, 0, 0⟩, fun _ => ⟨0, 0, 0⟩⟩⟩
        ⟨⟨0, 0, 0, 0, 0, 0, 0, 0, 0⟩,
          [⟨some "INT_TIMES", ⟨1, [5], [6], [7], true, true, false, [8], [9], [10]⟩⟩]⟩ =
      .ok (.values ts tm te
        { (⟨1, [5], [6], [7], true, true, false, [8], [9], [10]⟩ : IntTimesData) with
            int_start_BJD_TDB := ts, int_mid_BJD_TDB := tm } true) :=
  utc_tdb_partial_writeback_nonatomic _ _
    ⟨some "INT_TIMES", ⟨1, [5], [6], [7], true, true, false, [8], [9], [10]⟩⟩ rfl
    rfl rfl rfl (Or.inl rfl)

/-- C6: for every target coordinate in the domain (ra in [0, 360), dec in
[-90, 90]) the vector returned by the target direction resolver
get_target_vector2 has Euclidean norm exactly 1 in real arithmetic (the
constructed vector is divided by its own norm), hence within tolerance
1e-12. -/
theorem get_target_vector2_unit_norm (ra dec : ℝ) (h1 : 0 ≤ ra)
    (h2 : ra < 360) (h3 : -90 ≤ dec) (h4 : dec ≤ 90) :
    (get_target_vector2 ra dec).norm = 1 := by
  have key : (sky_cartesian ra dec).x ^ 2 + (sky_cartesian ra dec).y ^ 2 +
      (sky_cartesian ra dec).z ^ 2 = 1 := by
    simp only [sky_cartesian]
    linear_combination
      Real.cos (deg2rad dec) ^ 2 * Real.sin_sq_add_cos_sq (deg2rad ra) +
        Real.sin_sq_add_cos_sq (deg2rad dec)
  simp only [get_target_vector2, Vec3.norm, Vec3.divR]
  rw [key, Real.sqrt_one]
  simp only [div_one]
  rw [key, Real.sqrt_one]

/-- Witness for C6 at the concrete coordinate (ra, dec) = (0, 0). -/
theorem get_target_vector2_unit_norm_witness :
    (0 : ℝ) ≤ 0 ∧ (0 : ℝ) < 360 ∧ (-90 : ℝ) ≤ 0 ∧ (0 : ℝ) ≤ 90 ∧
      (get_target_vector2 0 0).norm = 1 :=
  ⟨le_refl 0, by norm_num, by norm_num, by norm_num,
    get_target_vector2_unit_norm 0 0 (le_refl 0) (by norm_num) (by norm_num)
      (by norm_num)⟩

/-- C2: the source linear_pos multiplies the day difference dt = t -
eph_time directly by the km/s velocity, never converting days to seconds.
At eph_time 59000, position (0, 0, 0) km, velocity (1, 0, 0) km/s and
request time 59001 (one day later) the code yields position (1, 0, 0) km
instead of the (86400, 0, 0) km required by its own documented units and by
the specification. -/
theorem linear_pos_missing_seconds_conversion :
    linear_pos [59001] 59000 ⟨0, 0, 0⟩ ⟨1, 0, 0⟩ = [⟨1, 0, 0⟩] ∧
    linear_pos [59001] 59000 ⟨0, 0, 0⟩ ⟨1, 0, 0⟩ ≠ [⟨86400, 0, 0⟩] := by
  constructor
  · simp only [linear_pos, Vec3.add, Vec3.smul, List.map_cons, List.map_nil]
    norm_num
  · simp only [linear_pos, Vec3.add, Vec3.smul, List.map_cons, List.map_nil]
    intro h
    have hx : ((0 : ℝ) + (59001 - 59000) * 1) = 86400 := by
      have := List.head_eq_of_cons_eq h
      exact congrArg Vec3.x this
    norm_num at hx

/-- C4: in the fallback path the barycentric output vectors of
get_jwst_position2 equal the meters-to-km converted barycenter-to-Earth
vector plus the platform position relative to Earth, and the heliocentric
output vectors equal the converted (bary_earth - bary_sun) vector plus the
same platform position; the two channels never mix. -/
theorem get_jwst_position2_channel_vectors (eph : Ephemeris) (times : List ℝ)
    (jwstpos : List Vec3) (i : ℕ) (hi : i < times.length)
    (hlen : jwstpos.length = times.length) :
    ((get_jwst_position2 eph times jwstpos).1)[i]! =
      ((eph.bary_earth times[i]!).divR 1000).add jwstpos[i]! ∧
    ((get_jwst_position2 eph times jwstpos).2)[i]! =
      (((eph.bary_earth times[i]!).sub (eph.bary_sun times[i]!)).divR 1000).add
        jwstpos[i]! := by
  constructor
  · simp only [get_jwst_position2]
    rw [getElem!_zipWith Vec3.add _ jwstpos i (by simpa using hi)
      (by simpa using hlen)]
    rw [getElem!_map _ times i hi]
  · simp only [get_jwst_position2]
    rw [getElem!_zipWith Vec3.add _ jwstpos i (by simpa using hi)
      (by simpa using hlen)]
    rw [getElem!_map _ times i hi]

/-- Witness for C4 with a constant ephemeris, one time and one platform
position vector. -/
theorem get_jwst_position2_channel_vectors_witness :
    ((get_jwst_position2 ⟨fun _ => ⟨1, 2, 3⟩, fun _ => ⟨4, 5, 6⟩⟩ [59000]
        [⟨7, 8, 9⟩]).1)[0]! =
      (((⟨1, 2, 3⟩ : Vec3)).divR 1000).add ⟨7, 8, 9⟩ ∧
    ((get_jwst_position2 ⟨fun _ => ⟨1, 2, 3⟩, fun _ => ⟨4, 5, 6⟩⟩ [59000]
        [⟨7, 8, 9⟩]).2)[0]! =
      ((((⟨1, 2, 3⟩ : Vec3)).sub ⟨4, 5, 6⟩).divR 1000).add ⟨7, 8, 9⟩ :=
  get_jwst_position2_channel_vectors ⟨fun _ => ⟨1, 2, 3⟩, fun _ => ⟨4, 5, 6⟩⟩
    [59000] [⟨7, 8, 9⟩] 0 (by simp) (by simp)

/-- C1: for every target coordinate with declination in range, every TT time
list and every parallel platform position list, compute_bary_helio_time2
succeeds and each output time minus the input time equals the dot product of
the target unit vector with the corresponding barycentric (respectively
heliocentric) platform position vector, divided by the speed of light in
km/s and by 86400 - exactly, in real arithmetic, hence within 1e-12 days. -/
theorem compute_bary_helio_time2_light_time_correction (eph : Ephemeris)
    (ra dec : ℝ) (hdec1 : -90 ≤ dec) (hdec2 : dec ≤ 90)
    (times : List ℝ) (jwstpos : List Vec3) (i : ℕ) (hi : i < times.length)
    (hlen : jwstpos.length = times.length) :
    ∃ rb rh,
      compute_bary_helio_time2 eph (ra, dec) times jwstpos = .ok (rb, rh) ∧
      rb[i]! - times[i]! =
        (get_target_vector2 ra dec).dot
            ((get_jwst_position2 eph times jwstpos).1)[i]! / cspeed / 86400 ∧
      rh[i]! - times[i]! =
        (get_target_vector2 ra dec).dot
            ((get_jwst_position2 eph times jwstpos).2)[i]! / cspeed / 86400 := by
  have hok := get_target_vector2E_ok ra dec hdec1 hdec2
  refine ⟨(lightTimeCorrect (get_target_vector2 ra dec) eph times jwstpos).1,
    (lightTimeCorrect (get_target_vector2 ra dec) eph times jwstpos).2, ?_, ?_, ?_⟩
  · simp [compute_bary_helio_time2, hok]
  · simp only [lightTimeCorrect]
    rw [getElem!_zipWith _ times _ i hi
      (by simpa using length_get_jwst_position2_fst eph times jwstpos hlen)]
    rw [getElem!_map _ _ i
      (by rw [length_get_jwst_position2_fst eph times jwstpos hlen]; exact hi)]
    ring
  · simp only [lightTimeCorrect]
    rw [getElem!_zipWith _ times _ i hi
      (by simpa using length_get_jwst_position2_snd eph times jwstpos hlen)]
    rw [getElem!_map _ _ i
      (by rw [length_get_jwst_position2_snd eph times jwstpos hlen]; exact hi)]
    ring

/-- Witness for C1 with a constant ephemeris, target (0, 0), one time and
one platform position vector. -/
theorem compute_bary_helio_time2_light_time_correction_witness :
    ∃ rb rh,
      compute_bary_helio_time2 ⟨fun _ => ⟨1, 2, 3⟩, fun _ => ⟨4, 5, 6⟩⟩ (0, 0)
          [59000] [⟨7, 8, 9⟩] = .ok (rb, rh) ∧
      rb[0]! - ([(59000 : ℝ)])[0]! =
        (get_target_vector2 0 0).dot
            ((get_jwst_position2 ⟨fun _ => ⟨1, 2, 3⟩, fun _ => ⟨4, 5, 6⟩⟩
              [59000] [⟨7, 8, 9⟩]).1)[0]! / cspeed / 86400 ∧
      rh[0]! - ([(59000 : ℝ)])[0]! =
        (get_target_vector2 0 0).dot
            ((get_jwst_position2 ⟨fun _ => ⟨1, 2, 3⟩, fun _ => ⟨4, 5, 6⟩⟩
              [59000] [⟨7, 8, 9⟩]).2)[0]! / cspeed / 86400 :=
  compute_bary_helio_time2_light_time_correction
    ⟨fun _ => ⟨1, 2, 3⟩, fun _ => ⟨4, 5, 6⟩⟩ 0 0 (by norm_num) (by norm_num)
    [59000] [⟨7, 8, 9⟩] 0 (by simp) (by simp)

/-- C5: whenever utc_tdb returns normally with a found INT_TIMES table, the
return value is exactly the triple of barycentric-corrected TDB arrays, each
parallel in length to the corresponding input UTC column; on either provider
path only element [0] (respectively the first component) of the provider's
(barycentric, heliocentric) result is kept, so the heliocentric times never
appear in the return value. -/
theorem utc_tdb_returns_barycentric_triple (env : Env) (fd : FitsFile)
    (hdu : HDU) (hfind : find_hdu fd "int_times" = .ok hdu)
    (ret : TdbReturn) (hrun : utc_tdb env fd = .ok ret) :
    ∃ ts tm te tb miss, ret = .values ts tm te tb miss ∧
      ts.length = hdu.data.int_start_MJD_UTC.length ∧
      tm.length = hdu.data.int_mid_MJD_UTC.length ∧
      te.length = hdu.data.int_end_MJD_UTC.length ∧
      ((env.useTimeconversion = true ∧
        ts = (hdu.data.int_start_MJD_UTC.map env.to_tt).map (fun t =>
          (env.compute_bary_helio_time
            (fd.primary.targ_ra, fd.primary.targ_dec) t).1) ∧
        tm = (hdu.data.int_mid_MJD_UTC.map env.to_tt).map (fun t =>
          (env.compute_bary_helio_time
            (fd.primary.targ_ra, fd.primary.targ_dec) t).1) ∧
        te = (hdu.data.int_end_MJD_UTC.map env.to_tt).map (fun t =>
          (env.compute_bary_helio_time
            (fd.primary.targ_ra, fd.primary.targ_dec) t).1)) ∨
       (env.useTimeconversion = false ∧
        ∃ rs rm re,
          compute_bary_helio_time2 env.eph
            (fd.primary.targ_ra, fd.primary.targ_dec)
            (hdu.data.int_start_MJD_UTC.map env.to_tt)
            (linear_pos (hdu.data.int_start_MJD_UTC.map env.to_tt)
              (env.to_tt fd.primary.eph_time)
              ⟨fd.primary.jwst_x, fd.primary.jwst_y, fd.primary.jwst_z⟩
              ⟨fd.primary.jwst_dx, fd.primary.jwst_dy, fd.primary.jwst_dz⟩) =
            .ok rs ∧
          compute_bary_helio_time2 env.eph
            (fd.primary.targ_ra, fd.primary.targ_dec)
            (hdu.data.int_mid_MJD_UTC.map env.to_tt)
            (linear_pos (hdu.data.int_mid_MJD_UTC.map env.to_tt)
              (env.to_tt fd.primary.eph_time)
              ⟨fd.primary.jwst_x, fd.primary.jwst_y, fd.primary.jwst_z⟩
              ⟨fd.primary.jwst_dx, fd.primary.jwst_dy, fd.primary.jwst_dz⟩) =
            .ok rm ∧
          compute_bary_helio_time2 env.eph
            (fd.primary.targ_ra, fd.primary.targ_dec)
            (hdu.data.int_end_MJD_UTC.map env.to_tt)
            (linear_pos (hdu.data.int_end_MJD_UTC.map env.to_tt)
              (env.to_tt fd.primary.eph_time)
              ⟨fd.primary.jwst_x, fd.primary.jwst_y, fd.primary.jwst_z⟩
              ⟨fd.primary.jwst_dx, fd.primary.jwst_dy, fd.primary.jwst_dz⟩) =
            .ok re ∧
          ts = rs.1 ∧ tm = rm.1 ∧ te = re.1)) := by
  cases htc : env.useTimeconversion with
  | true =>
    rw [utc_tdb_precise_eq env fd hdu hfind htc] at hrun
    have hret := (Except.ok.inj hrun).symm
    refine ⟨_, _, _, _, _, hret, ?_, ?_, ?_, Or.inl ⟨rfl, rfl, rfl, rfl⟩⟩
    · simp
    · simp
    · simp
  | false =>
    by_cases hd1 : -90 ≤ fd.primary.targ_dec
    · by_cases hd2 : fd.primary.targ_dec ≤ 90
      · rw [utc_tdb_fallback_eq env fd hdu hfind htc hd1 hd2] at hrun
        have hret := (Except.ok.inj hrun).symm
        refine ⟨_, _, _, _, _, hret, ?_, ?_, ?_,
          Or.inr ⟨rfl,
            ⟨lightTimeCorrect
                (get_target_vector2 fd.primary.targ_ra fd.primary.targ_dec)
                env.eph (hdu.data.int_start_MJD_UTC.map env.to_tt)
                (linear_pos (hdu.data.int_start_MJD_UTC.map env.to_tt)
                  (env.to_tt fd.primary.eph_time)
                  ⟨fd.primary.jwst_x, fd.primary.jwst_y, fd.primary.jwst_z⟩
                  ⟨fd.primary.jwst_dx, fd.primary.jwst_dy, fd.primary.jwst_dz⟩),
              lightTimeCorrect
                (get_target_vector2 fd.primary.targ_ra fd.primary.targ_dec)
                env.eph (hdu.data.int_mid_MJD_UTC.map env.to_tt)
                (linear_pos (hdu.data.int_mid_MJD_UTC.map env.to_tt)
                  (env.to_tt fd.primary.eph_time)
                  ⟨fd.primary.jwst_x, fd.primary.jwst_y, fd.primary.jwst_z⟩
                  ⟨fd.primary.jwst_dx, fd.primary.jwst_dy, fd.primary.jwst_dz⟩),
              lightTimeCorrect
                (get_target_vector2 fd.primary.targ_ra fd.primary.targ_dec)
                env.eph (hdu.data.int_end_MJD_UTC.map env.to_tt)
                (linear_pos (hdu.data.int_end_MJD_UTC.map env.to_tt)
                  (env.to_tt fd.primary.eph_time)
                  ⟨fd.primary.jwst_x, fd.primary.jwst_y, fd.primary.jwst_z⟩
                  ⟨fd.primary.jwst_dx, fd.primary.jwst_dy, fd.primary.jwst_dz⟩),
              compute_bary_helio_time2_ok env.eph fd.primary.targ_ra
                fd.primary.targ_dec hd1 hd2 _ _,
              compute_bary_helio_time2_ok env.eph fd.primary.targ_ra
                fd.primary.targ_dec hd1 hd2 _ _,
              compute_bary_helio_time2_ok env.eph fd.primary.targ_ra
                fd.primary.targ_dec hd1 hd2 _ _,
              rfl, rfl, rfl⟩⟩⟩
        · rw [length_lightTimeCorrect_fst _ _ _ _ (length_linear_pos _ _ _ _)]
          simp
        · rw [length_lightTimeCorrect_fst _ _ _ _ (length_linear_pos _ _ _ _)]
          simp
        · rw [length_lightTimeCorrect_fst _ _ _ _ (length_linear_pos _ _ _ _)]
          simp
      · rw [utc_tdb_fallback_error_aux env fd hdu hfind htc
          (Or.inr (lt_of_not_le hd2))] at hrun
        simp at hrun
    · rw [utc_tdb_fallback_error_aux env fd hdu hfind htc
        (Or.inl (lt_of_not_le hd1))] at hrun
      simp at hrun

/-- Witness for C5 on a one-row table with empty columns, precise provider
active. -/
theorem utc_tdb_returns_barycentric_triple_witness :
    ∃ ts tm te tb miss,
      (TdbReturn.values [] [] []
        (⟨1, [], [], [], true, true, true, [], [], []⟩ : IntTimesData) false) =
        .values ts tm te tb miss ∧
      ts.length = ([] : List ℝ).length ∧
      tm.length = ([] : List ℝ).length ∧
      te.length = ([] : List ℝ).length ∧
      ((true = true ∧
        ts = (([] : List ℝ).map id).map (fun t => ((fun (_ : ℝ × ℝ) (t : ℝ) => (t, t)) ((0 : ℝ), (0 : ℝ)) t).1) ∧
        tm = (([] : List ℝ).map id).map (fun t => ((fun (_ : ℝ × ℝ) (t : ℝ) => (t, t)) ((0 : ℝ), (0 : ℝ)) t).1) ∧
        te = (([] : List ℝ).map id).map (fun t => ((fun (_ : ℝ × ℝ) (t : ℝ) => (t, t)) ((0 : ℝ), (0 : ℝ)) t).1)) ∨
       (true = false ∧
        ∃ rs rm re,
          compute_bary_helio_time2 ⟨fun _ => ⟨0, 0, 0⟩, fun _ => ⟨0, 0, 0⟩⟩
            ((0 : ℝ), (0 : ℝ)) (([] : List ℝ).map id)
            (linear_pos (([] : List ℝ).map id) (id (0 : ℝ)) ⟨0, 0, 0⟩ ⟨0, 0, 0⟩) =
            .ok rs ∧
          compute_bary_helio_time2 ⟨fun _ => ⟨0, 0, 0⟩, fun _ => ⟨0, 0, 0⟩⟩
            ((0 : ℝ), (0 : ℝ)) (([] : List ℝ).map id)
            (linear_pos (([] : List ℝ).map id) (id (0 : ℝ)) ⟨0, 0, 0⟩ ⟨0, 0, 0⟩) =
            .ok rm ∧
          compute_bary_helio_time2 ⟨fun _ => ⟨0, 0, 0⟩, fun _ => ⟨0, 0, 0⟩⟩
            ((0 : ℝ), (0 : ℝ)) (([] : List ℝ).map id)
            (linear_pos (([] : List ℝ).map id) (id (0 : ℝ)) ⟨0, 0, 0⟩ ⟨0, 0, 0⟩) =
            .ok re ∧
          ts = rs.1 ∧ tm = rm.1 ∧ te = re.1)) :=
  utc_tdb_returns_barycentric_triple
    ⟨id, true, fun _ t => (t, t), ⟨fun _ => ⟨0, 0, 0⟩, fun _ => ⟨0, 0, 0⟩⟩⟩
    ⟨⟨0, 0, 0, 0, 0, 0, 0, 0, 0⟩,
      [⟨some "INT_TIMES", ⟨1, [], [], [], true, true, true, [], [], []⟩⟩]⟩
    ⟨some "INT_TIMES", ⟨1, [], [], [], true, true, true, [], [], []⟩⟩ rfl
    (.values [] [] [] ⟨1, [], [], [], true, true, true, [], [], []⟩ false) rfl

end UtcToTdb
